import Mathlib

/-!
Shallow embedding of `src/quiche/src/plugin.rs`: the translation layer
between quiche's internal frame/header/epoch representations and the
pluginop `PluginVal` value model, plus the `ConnectionToPlugin`
field accessors.

Conventions of the embedding:
* Rust `u8`/`u64`/`usize` become `Nat` (no arithmetic in this file
  overflows on the inputs of interest; Rust would panic on debug
  underflow, which only ever happens on inputs where the embedding
  already aborts).
* `todo!()` and `unwrap()` on `None` are abrupt termination; every
  function that can hit one returns a result type with an `abort`
  constructor.
* The serialization boundary (`postcard`) is external to this crate;
  getters return the `PluginVal` handed to `postcard::to_slice`, and
  setters take the outcome of `postcard::from_bytes` as a `DeserInput`.
-/

/-- `pluginop::common::Bytes`: a bounded byte-handle (tag, read/write caps). -/
structure Bytes where
  tag : Nat
  max_read_len : Nat
  max_write_len : Nat
  deriving DecidableEq, Repr

/-- quiche-internal `EcnCounts` as matched in `from_with_ph`. -/
structure EcnCounts where
  ect0_count : Nat
  ect1_count : Nat
  ecn_ce_count : Nat
  deriving DecidableEq, Repr

/-- quiche-internal `stream::RangeBuf` as used here: `off()`, `len()`, `fin()`. -/
structure RangeBuf where
  off : Nat
  len : Nat
  fin : Bool
  deriving DecidableEq, Repr

/-- quiche-internal `frame::Frame`. ACK `ranges` is the `RangeSet` as an
ascending list of half-open `(start, end)` intervals; `PathChallenge` /
`PathResponse` data is the `[u8; 8]` array as a byte list. -/
inductive Frame where
  | Padding (len : Nat)
  | Ping
  | ACK (ack_delay : Nat) (ranges : List (Nat × Nat)) (ecn_counts : Option EcnCounts)
  | ResetStream (stream_id : Nat) (error_code : Nat) (final_size : Nat)
  | StopSending (stream_id : Nat) (error_code : Nat)
  | Crypto (data : RangeBuf)
  | CryptoHeader (offset : Nat) (length : Nat)
  | NewToken (token : List Nat)
  | Stream (stream_id : Nat) (data : RangeBuf)
  | StreamHeader (stream_id : Nat) (offset : Nat) (length : Nat) (fin : Bool)
  | MaxData (max : Nat)
  | MaxStreamData (stream_id : Nat) (max : Nat)
  | MaxStreamsBidi (max : Nat)
  | MaxStreamsUni (max : Nat)
  | DataBlocked (limit : Nat)
  | StreamDataBlocked (stream_id : Nat) (limit : Nat)
  | StreamsBlockedBidi (limit : Nat)
  | StreamsBlockedUni (limit : Nat)
  | NewConnectionId (seq_num : Nat) (retire_prior_to : Nat)
      (conn_id : List Nat) (reset_token : List Nat)
  | RetireConnectionId (seq_num : Nat)
  | PathChallenge (data : List Nat)
  | PathResponse (data : List Nat)
  | ConnectionClose (error_code : Nat) (frame_type : Nat) (reason : List Nat)
  | ApplicationClose (error_code : Nat) (reason : List Nat)
  | HandshakeDone
  | Datagram (data : List Nat)
  | DatagramHeader (length : Nat)
  | Extension (ty : Nat) (tag : Nat)
  deriving DecidableEq, Repr

/-- `pluginop::common::quic::PaddingFrame`. -/
structure PaddingFrame where
  length : Nat
  deriving DecidableEq, Repr

/-- `pluginop::common::quic::PingFrame` (unit struct). -/
structure PingFrame where
  deriving DecidableEq, Repr

/-- `pluginop::common::quic::EcnCount`. -/
structure EcnCount where
  ect0_count : Nat
  ect1_count : Nat
  ectce_count : Nat
  deriving DecidableEq, Repr

/-- `pluginop::common::quic::AckRange`: one (gap, ack_range_length) pair. -/
structure AckRange where
  gap : Nat
  ack_range_length : Nat
  deriving DecidableEq, Repr

/-- `pluginop::common::quic::ACKFrame`. -/
structure ACKFrame where
  largest_acknowledged : Nat
  ack_delay : Nat
  ack_range_count : Nat
  first_ack_range : Nat
  ecn_counts : Option EcnCount
  ack_ranges : Bytes
  deriving DecidableEq, Repr

/-- `pluginop::common::quic::ResetStreamFrame`. -/
structure ResetStreamFrame where
  stream_id : Nat
  application_protocol_error_code : Nat
  final_size : Nat
  deriving DecidableEq, Repr

/-- `pluginop::common::quic::StopSendingFrame`. -/
structure StopSendingFrame where
  stream_id : Nat
  application_protocol_error_code : Nat
  deriving DecidableEq, Repr

/-- `pluginop::common::quic::CryptoFrame`. -/
structure CryptoFrame where
  offset : Nat
  length : Nat
  crypto_data : Bytes
  deriving DecidableEq, Repr

/-- `pluginop::common::quic::NewTokenFrame` (only matched by wildcard here). -/
structure NewTokenFrame where
  token : Bytes
  deriving DecidableEq, Repr

/-- `pluginop::common::quic::StreamFrame`. -/
structure StreamFrame where
  stream_id : Nat
  offset : Option Nat
  length : Option Nat
  fin : Bool
  stream_data : Bytes
  deriving DecidableEq, Repr

/-- `pluginop::common::quic::MaxDataFrame`. -/
structure MaxDataFrame where
  maximum_data : Nat
  deriving DecidableEq, Repr

/-- `pluginop::common::quic::MaxStreamDataFrame`. -/
structure MaxStreamDataFrame where
  stream_id : Nat
  maximum_stream_data : Nat
  deriving DecidableEq, Repr

/-- `pluginop::common::quic::MaxStreamsFrame`. -/
structure MaxStreamsFrame where
  unidirectional : Bool
  maximum_streams : Nat
  deriving DecidableEq, Repr

/-- `pluginop::common::quic::DataBlockedFrame`. -/
structure DataBlockedFrame where
  maximum_data : Nat
  deriving DecidableEq, Repr

/-- `pluginop::common::quic::StreamDataBlockedFrame`. -/
structure StreamDataBlockedFrame where
  stream_id : Nat
  maximum_stream_data : Nat
  deriving DecidableEq, Repr

/-- `pluginop::common::quic::StreamsBlockedFrame`. -/
structure StreamsBlockedFrame where
  unidirectional : Bool
  maximum_streams : Nat
  deriving DecidableEq, Repr

/-- `pluginop::common::quic::NewConnectionIdFrame`. -/
structure NewConnectionIdFrame where
  sequence_number : Nat
  retire_prior_to : Nat
  length : Nat
  connection_id : Bytes
  stateless_reset_token : Bytes
  deriving DecidableEq, Repr

/-- `pluginop::common::quic::RetireConnectionIdFrame`. -/
structure RetireConnectionIdFrame where
  sequence_number : Nat
  deriving DecidableEq, Repr

/-- `pluginop::common::quic::PathChallengeFrame` (data is the u64). -/
structure PathChallengeFrame where
  data : Nat
  deriving DecidableEq, Repr

/-- `pluginop::common::quic::PathResponseFrame` (data is the u64). -/
structure PathResponseFrame where
  data : Nat
  deriving DecidableEq, Repr

/-- `pluginop::common::quic::ConnectionCloseFrame`. -/
structure ConnectionCloseFrame where
  error_code : Nat
  frame_type : Option Nat
  reason_phrase_length : Nat
  reason_phrase : Bytes
  deriving DecidableEq, Repr

/-- `pluginop::common::quic::HandshakeDoneFrame` (unit struct). -/
structure HandshakeDoneFrame where
  deriving DecidableEq, Repr

/-- `pluginop::common::quic::ExtensionFrame`. -/
structure ExtensionFrame where
  frame_type : Nat
  tag : Nat
  deriving DecidableEq, Repr

/-- `pluginop::common::quic::Frame`: the plugin-side frame union, with the
variants this file constructs or matches. -/
inductive QFrame where
  | Padding (p : PaddingFrame)
  | Ping (p : PingFrame)
  | ACK (a : ACKFrame)
  | ResetStream (r : ResetStreamFrame)
  | StopSending (s : StopSendingFrame)
  | Crypto (c : CryptoFrame)
  | NewToken (n : NewTokenFrame)
  | Stream (s : StreamFrame)
  | MaxData (m : MaxDataFrame)
  | MaxStreamData (m : MaxStreamDataFrame)
  | MaxStreams (m : MaxStreamsFrame)
  | DataBlocked (d : DataBlockedFrame)
  | StreamDataBlocked (s : StreamDataBlockedFrame)
  | StreamsBlocked (s : StreamsBlockedFrame)
  | NewConnectionId (n : NewConnectionIdFrame)
  | RetireConnectionId (r : RetireConnectionIdFrame)
  | PathChallenge (p : PathChallengeFrame)
  | PathResponse (p : PathResponseFrame)
  | ConnectionClose (c : ConnectionCloseFrame)
  | HandshakeDone (h : HandshakeDoneFrame)
  | Extension (e : ExtensionFrame)
  deriving DecidableEq, Repr

/-- quiche-internal `packet::Epoch`. -/
inductive Epoch where
  | Initial
  | Handshake
  | Application
  deriving DecidableEq, Repr

/-- `pluginop::common::quic::KPacketNumberSpace`. -/
inductive KPacketNumberSpace where
  | Initial
  | Handshake
  | ApplicationData
  deriving DecidableEq, Repr

/-- `pluginop::common::quic::PacketType`. -/
inductive PacketType where
  | Initial
  | Retry
  | Handshake
  | ZeroRTT
  | VersionNegotiation
  | Short
  deriving DecidableEq, Repr

/-- `pluginop::common::quic::HeaderExt`. -/
structure HeaderExt where
  packet_number : Option Nat
  packet_number_len : Option Nat
  token : Option Bytes
  key_phase : Option Bool
  deriving DecidableEq, Repr

/-- `pluginop::common::quic::Header` (plugin-side header value). -/
structure QHeader where
  first : Nat
  version : Option Nat
  destination_cid : Bytes
  source_cid : Option Bytes
  supported_versions : Option (List Nat)
  ext : Option HeaderExt
  deriving DecidableEq, Repr

/-- `pluginop::common::quic::QVal`: the QUIC-specific value union. -/
inductive QVal where
  | Frame (f : QFrame)
  | Header (h : QHeader)
  | PacketNumberSpace (p : KPacketNumberSpace)
  | PacketType (t : PacketType)
  deriving DecidableEq, Repr

/-- Modelled from the spec: `pluginop::common::PluginVal` (crate not under
`src/`) is a tagged union over the QUIC union and scalar leaf kinds
(unsigned integers, booleans, opaque byte-handles). Only the leaves this
file's accessors traffic in are carried. -/
inductive PluginVal where
  | QUIC (q : QVal)
  | u64 (v : Nat)
  | bool (b : Bool)
  | bytes (b : Bytes)
  deriving DecidableEq, Repr

/-- Modelled from the spec: `TryFrom<PluginVal> for u64` from the pluginop
crate (not under `src/`) — each field has exactly one associated leaf
type, and a value of any other kind fails the conversion, surfacing as
`BadType` at the call sites below. -/
def tryIntoU64 : PluginVal → Option Nat
  | .u64 v => some v
  | _ => none

/-- Modelled from the spec: `TryFrom<PluginVal> for bool` from the
pluginop crate (not under `src/`), strict on the leaf kind. -/
def tryIntoBool : PluginVal → Option Bool
  | .bool b => some b
  | _ => none

/-- `u64::from_be_bytes` on an 8-byte array represented as a list. -/
def u64_from_be_bytes (bs : List Nat) : Nat :=
  bs.foldl (fun a b => a * 256 + b) 0

/-- `u64::to_be_bytes`, big-endian byte list of length 8. -/
def u64_to_be_bytes (n : Nat) : List Nat :=
  [n / 2 ^ 56 % 256, n / 2 ^ 48 % 256, n / 2 ^ 40 % 256, n / 2 ^ 32 % 256,
   n / 2 ^ 24 % 256, n / 2 ^ 16 % 256, n / 2 ^ 8 % 256, n % 256]

/-- Outcome of an encoding (`FromWithPH`) call: a value, or abrupt
termination at a `todo!()` / failed `unwrap()`. -/
inductive EncResult where
  | ok (v : PluginVal)
  | abort
  deriving DecidableEq, Repr

/-- The `while let Some(r) = ranges_iter.next_back()` loop of the ACK arm of
`from_with_ph`: walks the remaining ranges from highest to lowest, carrying
`smallest_ack`, emitting `gap = smallest_ack - r.end - 1` and
`ack_range_length = (r.end - 1) - r.start`. -/
def ackGapsLoop : Nat → List (Nat × Nat) → List AckRange
  | _, [] => []
  | smallest_ack, r :: rs =>
      ⟨smallest_ack - r.2 - 1, (r.2 - 1) - r.1⟩ :: ackGapsLoop r.1 rs

/-- The `ack_ranges` vector the ACK arm of `from_with_ph` computes from the
internal ascending range list (and then discards — see
`from_with_ph_frame`): delta gap/length pairs, highest range first. -/
def ack_delta_encode (ranges : List (Nat × Nat)) : List AckRange :=
  match ranges.reverse with
  | [] => []
  | first_range :: rest => ackGapsLoop first_range.1 rest

/-- `FromWithPH<frame::Frame, CTP>::from_with_ph`: quiche frame → PluginVal.
Arms whose struct literal contains `todo!()` (Crypto, CryptoHeader,
NewToken, Stream, StreamHeader, NewConnectionId, ConnectionClose,
ApplicationClose, Datagram, DatagramHeader) abort. In the ACK arm the
computed `ack_ranges` vector is dropped: the `ack_ranges` field of the
emitted `ACKFrame` is the literal `Bytes { tag: 0, max_read_len: 0,
max_write_len: 0 }` (marked `// TODO.` in the source). -/
def from_with_ph_frame : Frame → EncResult
  | .Padding len => .ok (.QUIC (.Frame (.Padding ⟨len⟩)))
  | .Ping => .ok (.QUIC (.Frame (.Ping ⟨⟩)))
  | .ACK ack_delay ranges ecn_counts =>
      let ack_range_count := ranges.length - 1
      match ranges.reverse with
      | [] => .abort
      | first_range :: rest =>
          let largest_acknowledged := first_range.2 - 1
          let first_ack_range := largest_acknowledged - first_range.1
          let _ack_ranges := ackGapsLoop first_range.1 rest
          let ecn := ecn_counts.map fun e =>
            EcnCount.mk e.ect0_count e.ect1_count e.ecn_ce_count
          .ok (.QUIC (.Frame (.ACK
            ⟨largest_acknowledged, ack_delay, ack_range_count,
             first_ack_range, ecn, ⟨0, 0, 0⟩⟩)))
  | .ResetStream stream_id error_code final_size =>
      .ok (.QUIC (.Frame (.ResetStream ⟨stream_id, error_code, final_size⟩)))
  | .StopSending stream_id error_code =>
      .ok (.QUIC (.Frame (.StopSending ⟨stream_id, error_code⟩)))
  | .Crypto _ => .abort
  | .CryptoHeader _ _ => .abort
  | .NewToken _ => .abort
  | .Stream _ _ => .abort
  | .StreamHeader _ _ _ _ => .abort
  | .MaxData max => .ok (.QUIC (.Frame (.MaxData ⟨max⟩)))
  | .MaxStreamData stream_id max =>
      .ok (.QUIC (.Frame (.MaxStreamData ⟨stream_id, max⟩)))
  | .MaxStreamsBidi max => .ok (.QUIC (.Frame (.MaxStreams ⟨false, max⟩)))
  | .MaxStreamsUni max => .ok (.QUIC (.Frame (.MaxStreams ⟨true, max⟩)))
  | .DataBlocked limit => .ok (.QUIC (.Frame (.DataBlocked ⟨limit⟩)))
  | .StreamDataBlocked stream_id limit =>
      .ok (.QUIC (.Frame (.StreamDataBlocked ⟨stream_id, limit⟩)))
  | .StreamsBlockedBidi limit =>
      .ok (.QUIC (.Frame (.StreamsBlocked ⟨false, limit⟩)))
  | .StreamsBlockedUni limit =>
      .ok (.QUIC (.Frame (.StreamsBlocked ⟨false, limit⟩)))
  | .NewConnectionId _ _ _ _ => .abort
  | .RetireConnectionId seq_num =>
      .ok (.QUIC (.Frame (.RetireConnectionId ⟨seq_num⟩)))
  | .PathChallenge data =>
      .ok (.QUIC (.Frame (.PathChallenge ⟨u64_from_be_bytes data⟩)))
  | .PathResponse data =>
      .ok (.QUIC (.Frame (.PathResponse ⟨u64_from_be_bytes data⟩)))
  | .ConnectionClose _ _ _ => .abort
  | .ApplicationClose _ _ => .abort
  | .HandshakeDone => .ok (.QUIC (.Frame (.HandshakeDone ⟨⟩)))
  | .Datagram _ => .abort
  | .DatagramHeader _ => .abort
  | .Extension ty tag => .ok (.QUIC (.Frame (.Extension ⟨ty, tag⟩)))

/-- `TryFromCoreQuicheError` from the source. -/
inductive TryFromCoreQuicheError where
  | BadFrame
  deriving DecidableEq, Repr

/-- Outcome of a decoding (`TryFromWithPH`) call: a frame, an error value,
or abrupt termination at a `todo!()`. -/
inductive DecResult where
  | ok (f : Frame)
  | err (e : TryFromCoreQuicheError)
  | abort
  deriving DecidableEq, Repr

/-- `TryFromWithPH<PluginVal, CTP>::try_from_with_ph`: PluginVal → quiche
frame. Non-frame values return `BadFrame`; ACK, Crypto, NewToken, Stream,
NewConnectionId and ConnectionClose sub-variants hit `todo!()` (abort). -/
def try_from_with_ph_frame : PluginVal → DecResult
  | .QUIC (.Frame f) =>
      match f with
      | .Padding p => .ok (.Padding p.length)
      | .Ping _ => .ok .Ping
      | .ACK _ => .abort
      | .ResetStream rs =>
          .ok (.ResetStream rs.stream_id
            rs.application_protocol_error_code rs.final_size)
      | .StopSending ss =>
          .ok (.StopSending ss.stream_id ss.application_protocol_error_code)
      | .Crypto _ => .abort
      | .NewToken _ => .abort
      | .Stream _ => .abort
      | .MaxData md => .ok (.MaxData md.maximum_data)
      | .MaxStreamData msd =>
          .ok (.MaxStreamData msd.stream_id msd.maximum_stream_data)
      | .MaxStreams ms =>
          if ms.unidirectional then .ok (.MaxStreamsUni ms.maximum_streams)
          else .ok (.MaxStreamsBidi ms.maximum_streams)
      | .DataBlocked db => .ok (.DataBlocked db.maximum_data)
      | .StreamDataBlocked sdb =>
          .ok (.StreamDataBlocked sdb.stream_id sdb.maximum_stream_data)
      | .StreamsBlocked sb =>
          if sb.unidirectional then .ok (.StreamsBlockedUni sb.maximum_streams)
          else .ok (.StreamsBlockedBidi sb.maximum_streams)
      | .NewConnectionId _ => .abort
      | .RetireConnectionId rc => .ok (.RetireConnectionId rc.sequence_number)
      | .PathChallenge pc => .ok (.PathChallenge (u64_to_be_bytes pc.data))
      | .PathResponse pr => .ok (.PathResponse (u64_to_be_bytes pr.data))
      | .ConnectionClose _ => .abort
      | .HandshakeDone _ => .ok .HandshakeDone
      | .Extension e => .ok (.Extension e.frame_type e.tag)
  | _ => .err .BadFrame

/-- `pluginop::common::quic::PacketNumberSpaceField` sub-fields. -/
inductive PacketNumberSpaceField where
  | ReceivedPacketNeedAck
  | AckEllicited
  | NextPacketNumber
  | HasSendKeys
  | ShouldSend
  | LargestRxPacketNumber
  deriving DecidableEq, Repr

/-- `pluginop::common::quic::ConnectionField`, the variants this file
dispatches on. -/
inductive ConnectionField where
  | MaxTxData
  | IsEstablished
  | IsServer
  | PacketNumberSpace (e : KPacketNumberSpace) (f : PacketNumberSpaceField)
  deriving DecidableEq, Repr

/-- `pluginop::common::quic::RecoveryField`, the variants this file
dispatches on. -/
inductive RecoveryField where
  | CongestionWindow
  | Ssthresh
  deriving DecidableEq, Repr

/-- `pluginop::api::CTPError` kinds surfaced by the setters here. -/
inductive CTPError where
  | SerializeError
  | BadType
  deriving DecidableEq, Repr

/-- Per-epoch packet-number-space state, the two fields read here:
`recv_pkt_need_ack.len()` and `ack_elicited`. -/
structure PktNumSpace where
  recv_pkt_need_ack_len : Nat
  ack_elicited : Bool
  deriving DecidableEq, Repr

/-- `self.pkt_num_spaces`, an Epoch-indexed triple. -/
structure PktNumSpaces where
  initial : PktNumSpace
  handshake : PktNumSpace
  application : PktNumSpace
  deriving DecidableEq, Repr

/-- Index `pkt_num_spaces[epoch]`. -/
def PktNumSpaces.get (s : PktNumSpaces) : Epoch → PktNumSpace
  | .Initial => s.initial
  | .Handshake => s.handshake
  | .Application => s.application

/-- Per-path recovery state, the two fields written here. -/
structure Recovery where
  congestion_window : Nat
  ssthresh : Nat
  deriving DecidableEq, Repr

/-- A network path as used here: its recovery state. -/
structure PathState where
  recovery : Recovery
  deriving DecidableEq, Repr

/-- quiche `Connection`, the fields these accessors touch.
`active_path = none` models `self.paths.get_active_mut()` returning `Err`. -/
structure Connection where
  max_tx_data : Nat
  is_established : Bool
  is_server : Bool
  pkt_num_spaces : PktNumSpaces
  active_path : Option PathState
  deriving DecidableEq, Repr

/-- The outcome `postcard::from_bytes` produced from the setter's input
byte slice: a deserialized `PluginVal` or a failure. -/
inductive DeserInput where
  | ok (pv : PluginVal)
  | fail
  deriving DecidableEq, Repr

/-- Outcome of a getter: the `PluginVal` handed to `postcard::to_slice`,
or abrupt termination at a `todo!()`. -/
inductive GetResult where
  | ok (pv : PluginVal)
  | abort
  deriving DecidableEq, Repr

/-- Outcome of a setter on `&mut self`: `ok` with the post-state, `err`
with the (unchanged) state at the early return, or abrupt termination at
a `todo!()`. -/
inductive SetResult where
  | ok (c : Connection)
  | err (c : Connection) (e : CTPError)
  | abort
  deriving DecidableEq, Repr

/-- `From<quic::KPacketNumberSpace> for packet::Epoch`. -/
def epoch_from_pns : KPacketNumberSpace → Epoch
  | .Initial => .Initial
  | .Handshake => .Handshake
  | .ApplicationData => .Application

/-- The match inside `FromWithPH<packet::Epoch, CTP>::from_with_ph`:
packet::Epoch → quic::KPacketNumberSpace. -/
def epoch_to_pns : Epoch → KPacketNumberSpace
  | .Initial => .Initial
  | .Handshake => .Handshake
  | .Application => .ApplicationData

/-- `FromWithPH<packet::Epoch, CTP>::from_with_ph`, full result. -/
def from_with_ph_epoch (e : Epoch) : PluginVal :=
  .QUIC (.PacketNumberSpace (epoch_to_pns e))

/-- `ConnectionToPlugin::get_recovery` for `crate::Connection`: the body
is a single `todo!("find the right recovery")` for every field. -/
def get_recovery (_c : Connection) (_f : RecoveryField) : GetResult :=
  .abort

/-- `ConnectionToPlugin::set_recovery`: deserializes, then — *only if an
active path resolves* — dispatches on the field; when `get_active_mut`
fails the match is skipped and the function still returns `Ok(())`. -/
def set_recovery (c : Connection) (field : RecoveryField)
    (r : DeserInput) : SetResult :=
  match r with
  | .fail => .err c .SerializeError
  | .ok pv =>
      match c.active_path with
      | none => .ok c
      | some p =>
          match field with
          | .CongestionWindow =>
              match tryIntoU64 pv with
              | none => .err c .BadType
              | some v =>
                  let r1 := { p.recovery with congestion_window := v }
                  .ok { c with active_path := some { p with recovery := r1 } }
          | .Ssthresh =>
              match tryIntoU64 pv with
              | none => .err c .BadType
              | some v =>
                  let r1 := { p.recovery with ssthresh := v }
                  .ok { c with active_path := some { p with recovery := r1 } }

/-- `ConnectionToPlugin::get_connection`: dispatches on the field; the
four unimplemented `PacketNumberSpaceField` arms are `todo!()`. The
returned `PluginVal` is what the source passes to `postcard::to_slice`. -/
def get_connection (c : Connection) (field : ConnectionField) : GetResult :=
  match field with
  | .MaxTxData => .ok (.u64 c.max_tx_data)
  | .IsEstablished => .ok (.bool c.is_established)
  | .IsServer => .ok (.bool c.is_server)
  | .PacketNumberSpace e pns_field =>
      let pns := c.pkt_num_spaces.get (epoch_from_pns e)
      match pns_field with
      | .ReceivedPacketNeedAck => .ok (.bool (pns.recv_pkt_need_ack_len > 0))
      | .AckEllicited => .ok (.bool pns.ack_elicited)
      | .NextPacketNumber => .abort
      | .HasSendKeys => .abort
      | .ShouldSend => .abort
      | .LargestRxPacketNumber => .abort

/-- `ConnectionToPlugin::set_connection`: deserializes, then only the
`MaxTxData` arm is implemented; every other field is `todo!()`. -/
def set_connection (c : Connection) (field : ConnectionField)
    (r : DeserInput) : SetResult :=
  match r with
  | .fail => .err c .SerializeError
  | .ok pv =>
      match field with
      | .MaxTxData =>
          match tryIntoU64 pv with
          | none => .err c .BadType
          | some v => .ok { c with max_tx_data := v }
      | _ => .abort

/-- quiche-internal `packet::Header`, the fields read by the header
codec; `first_byte` models `h.first_byte()`, which can fail
(`unwrap_or(0)` at use sites). -/
structure Header where
  ty : PacketType
  first_byte : Option Nat
  version : Nat
  pkt_num : Nat
  pkt_num_len : Nat
  key_phase : Bool
  deriving DecidableEq, Repr

/-- The `match h.ty` of `FromWithPH<packet::Header, CTP>::from_with_ph`:
the `dcid` local is the literal `Bytes { tag: 0, max_read_len: 0,
max_write_len: 0 }` (the `h.dcid.to_vec()` conversion is commented out,
marked FIXME), and source_cid / supported_versions / token are `None`
in every arm. -/
def header_hdr (h : Header) : QHeader :=
  let dcid : Bytes := ⟨0, 0, 0⟩
  match h.ty with
  | .VersionNegotiation =>
      { first := h.first_byte.getD 0
        version := some 0
        destination_cid := dcid
        source_cid := none
        supported_versions := none
        ext := some ⟨some h.pkt_num, some h.pkt_num_len, none, some h.key_phase⟩ }
  | .Short =>
      { first := h.first_byte.getD 0
        version := none
        destination_cid := dcid
        source_cid := none
        supported_versions := none
        ext := some ⟨some h.pkt_num, some h.pkt_num_len, none, some h.key_phase⟩ }
  | _ =>
      { first := h.first_byte.getD 0
        version := some h.version
        destination_cid := dcid
        source_cid := none
        supported_versions := none
        ext := some ⟨some h.pkt_num, some h.pkt_num_len, none, some h.key_phase⟩ }

/-- `FromWithPH<packet::Header, CTP>::from_with_ph`, full result. -/
def from_with_ph_header (h : Header) : PluginVal :=
  .QUIC (.Header (header_hdr h))

/-- `crate::Error` variants reachable from the i64 mapping. -/
inductive QuicheError where
  | SuspendSendingProcess
  deriving DecidableEq, Repr

/-- Outcome of `From<i64> for crate::Error`: an error value, or abrupt
termination at the `todo!("Error value {e}")` fallback. -/
inductive ErrFromResult where
  | ok (e : QuicheError)
  | abort
  deriving DecidableEq, Repr

/-- `From<i64> for crate::Error`: `-1000` maps to
`SuspendSendingProcess`; every other code hits `todo!()`. -/
def error_from_i64 (e : Int) : ErrFromResult :=
  if e = -1000 then .ok .SuspendSendingProcess else .abort

/-- `FromWithPH<packet::Type, CTP>::from_with_ph`. -/
def from_with_ph_type (value : PacketType) : PluginVal :=
  let pkt_type := match value with
    | .Initial => PacketType.Initial
    | .Retry => PacketType.Retry
    | .Handshake => PacketType.Handshake
    | .ZeroRTT => PacketType.ZeroRTT
    | .VersionNegotiation => PacketType.VersionNegotiation
    | .Short => PacketType.Short
  .QUIC (.PacketType pkt_type)

/-- A concrete connection with an active path, for closed evaluations. -/
def connA : Connection :=
  { max_tx_data := 100
    is_established := false
    is_server := true
    pkt_num_spaces := ⟨⟨0, false⟩, ⟨0, false⟩, ⟨2, true⟩⟩
    active_path := some ⟨⟨12000, 50000⟩⟩ }

/-- A concrete connection with no resolvable active path. -/
def connB : Connection :=
  { max_tx_data := 100
    is_established := true
    is_server := false
    pkt_num_spaces := ⟨⟨0, false⟩, ⟨0, false⟩, ⟨0, false⟩⟩
    active_path := none }

/-- Claim C1: for internal ACK ranges `[[5,8), [10,13)]` the encoder's
range re-encoding computes `largest_acknowledged = 12`,
`first_ack_range = 2` and the gap/length sequence `[(1, 2)]` — but the
emitted `ACKFrame` carries a zeroed byte-handle in place of that
sequence, and decoding any ACK-tagged value aborts at `todo!("ack")`
instead of reproducing the ranges. -/
theorem ack_concrete_case_encode_drops_ranges_and_decode_aborts :
    ack_delta_encode [(5, 8), (10, 13)] = [⟨1, 2⟩] ∧
    from_with_ph_frame (.ACK 0 [(5, 8), (10, 13)] none) =
      .ok (.QUIC (.Frame (.ACK ⟨12, 0, 1, 2, none, ⟨0, 0, 0⟩⟩))) ∧
    try_from_with_ph_frame
      (.QUIC (.Frame (.ACK ⟨12, 0, 1, 2, none, ⟨0, 0, 0⟩⟩))) = .abort := by
  decide

/-- Claim C2: the frame round-trip `decode(encode(f)) = f` fails on the
fully implemented variant `StreamsBlockedUni`: the encoder emits
`unidirectional = false`, so the decoder returns `StreamsBlockedBidi`. -/
theorem frame_roundtrip_fails_for_streams_blocked_uni :
    from_with_ph_frame (.StreamsBlockedUni 3) =
      .ok (.QUIC (.Frame (.StreamsBlocked ⟨false, 3⟩))) ∧
    try_from_with_ph_frame (.QUIC (.Frame (.StreamsBlocked ⟨false, 3⟩))) =
      .ok (.StreamsBlockedBidi 3) ∧
    Frame.StreamsBlockedBidi 3 ≠ Frame.StreamsBlockedUni 3 := by
  decide

/-- Claim C3: enumerated but unimplemented mappings do not return
`UnsupportedFrame` / `UnsupportedField` error values — they terminate
abruptly at `todo!()`: all of `get_recovery`, the unimplemented
packet-number-space sub-fields of `get_connection`, every
`set_connection` field other than `MaxTxData`, and the unimplemented
frame encode/decode arms abort. -/
theorem unimplemented_mappings_abort :
    get_recovery connA .CongestionWindow = .abort ∧
    get_connection connA (.PacketNumberSpace .Initial .NextPacketNumber) =
      .abort ∧
    set_connection connA .IsServer (.ok (.bool true)) = .abort ∧
    from_with_ph_frame (.NewToken []) = .abort ∧
    try_from_with_ph_frame (.QUIC (.Frame (.Crypto ⟨0, 0, ⟨0, 0, 0⟩⟩))) =
      .abort := by
  decide

/-- Claim C4: for every limit, encoding `StreamsBlockedUni limit` emits a
`StreamsBlockedFrame` with `unidirectional = false`, and decoding that
value yields `StreamsBlockedBidi limit`, losing the uni/bidi
distinction. -/
theorem streams_blocked_uni_decodes_as_bidi (limit : Nat) :
    from_with_ph_frame (.StreamsBlockedUni limit) =
      .ok (.QUIC (.Frame (.StreamsBlocked ⟨false, limit⟩))) ∧
    try_from_with_ph_frame (.QUIC (.Frame (.StreamsBlocked ⟨false, limit⟩))) =
      .ok (.StreamsBlockedBidi limit) := by
  exact ⟨rfl, rfl⟩

/-- Claim C5: when the incoming value deserializes but fails the u64
conversion, `set_connection(MaxTxData, v)` returns `BadType` with the
connection state (hence `max_tx_data`) unchanged. -/
theorem set_connection_max_tx_data_bad_type (c : Connection)
    (pv : PluginVal) (h : tryIntoU64 pv = none) :
    set_connection c .MaxTxData (.ok pv) = .err c .BadType := by
  simp only [set_connection, h]

theorem set_connection_max_tx_data_bad_type_witness :
    tryIntoU64 (.bool true) = none ∧
    set_connection connA .MaxTxData (.ok (.bool true)) = .err connA .BadType :=
  ⟨rfl, set_connection_max_tx_data_bad_type connA (.bool true) rfl⟩

/-- Claim C6: the set-then-get round-trip only exists for `MaxTxData`
(where it holds exactly); for any other enumerated field with a defined
type — `IsEstablished` shown concretely — `set_connection` aborts at
`todo!()` instead of storing the value. -/
theorem set_then_get_holds_only_for_max_tx_data :
    set_connection connA .IsEstablished (.ok (.bool true)) = .abort ∧
    (∀ (c : Connection) (v : Nat),
      set_connection c .MaxTxData (.ok (.u64 v)) =
        .ok { c with max_tx_data := v }) ∧
    (∀ (c : Connection) (v : Nat),
      get_connection { c with max_tx_data := v } .MaxTxData =
        .ok (.u64 v)) :=
  ⟨rfl, fun _ _ => rfl, fun _ _ => rfl⟩

/-- Claim C7: when no active path resolves, `set_recovery` skips the
whole field dispatch and still returns `Ok(())` — success with the
connection state unmodified, for every field and every deserializable
value. -/
theorem set_recovery_silent_noop_without_active_path (c : Connection)
    (f : RecoveryField) (pv : PluginVal) (h : c.active_path = none) :
    set_recovery c f (.ok pv) = .ok c := by
  simp only [set_recovery, h]

theorem set_recovery_silent_noop_witness :
    connB.active_path = none ∧
    set_recovery connB .CongestionWindow (.ok (.u64 7)) = .ok connB :=
  ⟨rfl, set_recovery_silent_noop_without_active_path connB
    .CongestionWindow (.u64 7) rfl⟩

/-- Claim C8: the i64 → `crate::Error` mapping is not total: `-1000`
maps to `SuspendSendingProcess`, but every other code — `0` and `-999`
shown — terminates abruptly at `todo!()` instead of mapping to an
unknown-plugin-error value. -/
theorem error_from_i64_aborts_on_unknown_codes :
    error_from_i64 (-1000) = .ok .SuspendSendingProcess ∧
    error_from_i64 0 = .abort ∧
    error_from_i64 (-999) = .abort := by
  decide

/-- Claim C9: the Epoch ↔ KPacketNumberSpace mapping is a total
bijection: the two conversions are mutually inverse on every value of
both enumerations. -/
theorem epoch_pns_bijection :
    (∀ e : Epoch, epoch_from_pns (epoch_to_pns e) = e) ∧
    (∀ p : KPacketNumberSpace, epoch_to_pns (epoch_from_pns p) = p) := by
  constructor <;> intro x <;> cases x <;> rfl

/-- Claim C10: for every header of any kind, the encoded header value's
`destination_cid` is the byte-handle `⟨0, 0, 0⟩` and its `source_cid`,
`supported_versions` and `token` are all absent. -/
theorem header_codec_redacts_cids_and_token (h : Header) :
    (header_hdr h).destination_cid = ⟨0, 0, 0⟩ ∧
    (header_hdr h).source_cid = none ∧
    (header_hdr h).supported_versions = none ∧
    (header_hdr h).ext.map HeaderExt.token = some none := by
  cases h with
  | mk ty fb v pn pnl kp => cases ty <;> exact ⟨rfl, rfl, rfl, rfl⟩
